import Mathlib

/-!
Shallow embedding of `src/mypypackage/plot.py` (the `plot_pairs` function)
together with the data-frame operations it uses, and theorems settling the
frozen claims about it.

Modelling conventions:
* A pandas `DataFrame` is a list of named, dtype-tagged columns of cell
  values.  Numeric cell values are modelled as integers: `plot_pairs` only
  stores, selects, groups, sorts and counts cell values — it never combines
  them arithmetically (the Pearson correlation it displays is represented by
  the exact value lists it is computed from), so integer payloads lose no
  generality for the properties at stake.
* Matplotlib/seaborn drawing calls are modelled by a `CellRender` value per
  grid cell recording which primitive the source invokes on that cell and
  with which data and options.  The purely cosmetic pass (spine removal,
  interior tick-label clearing) is not load-bearing for any claim and is not
  modelled.
* `**kwargs` is forwarded verbatim by the source and never inspected, so it
  is omitted.
-/

namespace PlotPairs

/-- The pandas storage dtypes the source distinguishes.  `object` and
`category` are the text/enumerated dtypes; the rest are numeric storage
dtypes (`int32` and `int8` are genuine pandas dtypes that are numeric but
are *not* in the literal list `['float64', 'int64']` the source tests the
grouping column against; `int8` is also the dtype of `cat.codes`). -/
inductive Dtype where
  | object
  | category
  | int64
  | float64
  | int32
  | int8
  deriving DecidableEq, Repr

/-- `select_dtypes(include=['object', 'category'])`: the text/enumerated
dtypes. -/
def Dtype.isCatLike : Dtype → Bool
  | .object => true
  | .category => true
  | _ => false

/-- `dtype in ['float64', 'int64']` — the test the source applies to the
grouping column (note: a strictly smaller class than "numeric"). -/
def Dtype.isFloat64OrInt64 : Dtype → Bool
  | .int64 => true
  | .float64 => true
  | _ => false

/-- A cell value of the table: a string (text/enumerated columns) or a
number (numeric columns, modelled as integers, see the file comment). -/
inductive Val where
  | vstr (s : String)
  | vnum (n : Int)
  deriving DecidableEq, Repr

/-- Lexicographic order on character lists (string comparison, written out
over the character list so that it is kernel-computable). -/
def charListLE : List Char → List Char → Bool
  | [], _ => true
  | _ :: _, [] => false
  | a :: as, b :: bs => if a < b then true else if b < a then false else charListLE as bs

/-- Total order used by `astype("category")` when it sorts the distinct
values into categories: numbers before strings, numbers by value, strings
lexicographically. -/
def valLE : Val → Val → Bool
  | .vnum a, .vnum b => a ≤ b
  | .vstr a, .vstr b => charListLE a.data b.data
  | .vnum _, .vstr _ => true
  | .vstr _, .vnum _ => false

/-- Insertion into a `valLE`-sorted list. -/
def insertSorted (v : Val) : List Val → List Val
  | [] => [v]
  | w :: ws => if valLE v w then v :: w :: ws else w :: insertSorted v ws

/-- Insertion sort by `valLE`. -/
def sortVals : List Val → List Val
  | [] => []
  | v :: vs => insertSorted v (sortVals vs)

/-- The sorted distinct values of a column: the category list of
`astype("category")`, and the (sorted) group keys of a pandas `groupby`. -/
def sortedDistinct (vs : List Val) : List Val :=
  sortVals vs.eraseDups

/-- `astype("category").cat.codes`: each value is replaced by the index of
its value in the sorted list of distinct values. -/
def catCodes (vs : List Val) : List Val :=
  vs.map (fun v => Val.vnum ((sortedDistinct vs).findIdx (fun w => decide (w = v)) : Int))

/-- One named, dtype-tagged column of a data frame. -/
structure Column where
  name : String
  dtype : Dtype
  values : List Val
  deriving DecidableEq, Repr

/-- A pandas `DataFrame`: an ordered list of named columns. -/
structure DataFrame where
  cols : List Column
  deriving DecidableEq, Repr

/-- The column names, in order. -/
def DataFrame.names (df : DataFrame) : List String :=
  df.cols.map (fun c => c.name)

/-- Look a column up by name (first match), `none` when absent. -/
def DataFrame.col? (df : DataFrame) (n : String) : Option Column :=
  df.cols.find? (fun c => decide (c.name = n))

/-- The cell values of column `n` (`[]` when the column is absent). -/
def DataFrame.colVals (df : DataFrame) (n : String) : List Val :=
  match df.col? n with
  | some c => c.values
  | none => []

/-- The dtype of column `n`, when present. -/
def DataFrame.dtypeOf (df : DataFrame) (n : String) : Option Dtype :=
  (df.col? n).map (fun c => c.dtype)

/-- `df.copy()`: in the value semantics of the embedding a copy is the same
frame value (the heap distinction is carried by `PlotState` below). -/
def DataFrame.copy (df : DataFrame) : DataFrame := df

/-- `df[var] = vals` — replace the values (and dtype) of every column named
`n`; pandas assignment to an existing column label. -/
def DataFrame.setCol (df : DataFrame) (n : String) (dt : Dtype) (vals : List Val) : DataFrame :=
  ⟨df.cols.map (fun c => if c.name = n then ⟨n, dt, vals⟩ else c)⟩

/-- `select_dtypes(include=['object', 'category']).columns`. -/
def DataFrame.catColumns (df : DataFrame) : List String :=
  (df.cols.filter (fun c => c.dtype.isCatLike)).map (fun c => c.name)

/-- `select_dtypes(exclude=['object', 'category']).columns`. -/
def DataFrame.numColumns (df : DataFrame) : List String :=
  (df.cols.filter (fun c => !c.dtype.isCatLike)).map (fun c => c.name)

/-- The one error class the source can raise itself: the `KeyError` of a
column lookup `data[...]` with an unknown label. -/
inductive PdError where
  | keyError
  deriving DecidableEq, Repr

/-- `data[ns]` — column selection by a list of labels: raises `KeyError`
when any label is absent, otherwise yields the frame with the requested
columns in the requested order. -/
def selectCols (df : DataFrame) (ns : List String) : Except PdError DataFrame :=
  if ns.all (fun n => (df.col? n).isSome) then
    .ok ⟨ns.filterMap df.col?⟩
  else
    .error .keyError

/-- The three grouping modes of the source (`color_mode`). -/
inductive ColorMode where
  | none
  | continuous
  | categorical
  deriving DecidableEq, Repr

/-- `color_mode` resolution from the source: `'none'` when `color_by is
None`, `'continuous'` when `data[color_by].dtype in ['float64', 'int64']`,
`'categorical'` otherwise.  (The `.getD .object` default is unreachable at
every call site: the selection `data[all_vars]` has already ensured the
column exists.) -/
def resolveColorMode (data : DataFrame) (color_by : Option String) : ColorMode :=
  match color_by with
  | Option.none => .none
  | some c =>
      if ((data.dtypeOf c).getD .object).isFloat64OrInt64 then .continuous
      else .categorical

/-- The python membership test `color_by in num_vars` (with
`None in num_vars` being `False`). -/
def colorInNum (color_by : Option String) (num_vars : List String) : Bool :=
  match color_by with
  | some c => decide (c ∈ num_vars)
  | Option.none => false

/-- `all_vars` from the source: `vars`, extended by `color_by` when it is
given and not already a member. -/
def allVars (vars : List String) (color_by : Option String) : List String :=
  match color_by with
  | Option.none => vars
  | some c => if c ∈ vars then vars else vars ++ [c]

/-- One line of the correlation annotation written into an upper-triangle
cell.  `label` is the group key prefixed to the line (`none` for the
overall `Corr:` line); the line shows the Pearson correlation of `xvals`
against `yvals` formatted to `decimals` decimal places (the source's
`f"{...:.2f}"`). -/
structure CorrLine where
  label : Option Val
  xvals : List Val
  yvals : List Val
  decimals : Nat
  deriving DecidableEq, Repr

/-- What one grid cell renders after `plot_pairs` has run: `baseline` when
the cell keeps the axes produced by `sns.pairplot`, otherwise the drawing
primitive the source replaces the cell with, together with the data and
options it is invoked with. -/
inductive CellRender where
  | baseline
  | corrAnnot (lines : List CorrLine) (fontsize : Int) (ticksRemoved : Bool)
  | histogram (xvals : List Val) (hue : Option String) (dodge : Bool) (legend : Bool)
  | kde (xvals : List Val) (color : String) (legend : Bool)
  | heatmap (table : List (Val × List (Val × Nat))) (annotFmt : String) (cbar : Bool)
  | boxplotH (yvals : List Val) (xvals : List Val) (hue : Option String)
  | boxplotV (xvals : List Val) (yvals : List Val) (hue : Option String)
  deriving DecidableEq, Repr

/-- Which of the source's override rules produced a render: 0 for the
untouched baseline, 1–6 for the six `if`/`elif` branches of the cell loop
in source order (correlation annotation, diagonal histogram, diagonal
density curve, count heatmap, horizontal boxplot, vertical boxplot). -/
def CellRender.kind : CellRender → Nat
  | .baseline => 0
  | .corrAnnot _ _ _ => 1
  | .histogram _ _ _ _ => 2
  | .kde _ _ _ => 3
  | .heatmap _ _ _ => 4
  | .boxplotH _ _ _ => 5
  | .boxplotV _ _ _ => 6

/-- The values of `colVals` on the rows where `keyVals` equals `g`: the
group-`g` slice used by `groupby(color_by)`. -/
def rowsWhere (keyVals : List Val) (g : Val) (colVals : List Val) : List Val :=
  (keyVals.zip colVals).filterMap
    (fun p => if p.1 = g then some p.2 else Option.none)

/-- The number of rows where the two columns take the pair of values
`(r, c)` — one entry of `groupby([row_var, col_var]).size()`. -/
def countPairs (rs cs : List Val) (r c : Val) : Nat :=
  (rs.zip cs).countP (fun p => decide (p.1 = r ∧ p.2 = c))

/-- `groupby([row_var, col_var]).size().unstack(fill_value=0)`: one row per
distinct value of the row column (sorted), one entry per distinct value of
the column column (sorted), holding the pair count — `0` for absent
combinations. -/
def crosstab (rs cs : List Val) : List (Val × List (Val × Nat)) :=
  (sortedDistinct rs).map
    (fun r => (r, (sortedDistinct cs).map (fun c => (c, countPairs rs cs r c))))

/-- Look one count up in a `crosstab` table. -/
def ctLookup (t : List (Val × List (Val × Nat))) (r c : Val) : Option Nat :=
  match t.find? (fun p => decide (p.1 = r)) with
  | some row => (row.2.find? (fun p => decide (p.1 = c))).map (fun p => p.2)
  | Option.none => Option.none

/-- The context the cell-override loop runs in, assembled by the lines of
`plot_pairs` before the loop: the grid variables, the two dtype
classifications (computed on `data[all_vars]`, before code conversion), the
grouping column and resolved mode, the working frame `plt_df` (after code
conversion, when any), and the annotation font size. -/
structure PlotCtx where
  vars : List String
  cat_vars : List String
  num_vars : List String
  color_by : Option String
  color_mode : ColorMode
  plt : DataFrame
  corr_fontsize : Int
  deriving DecidableEq, Repr

instance : Inhabited PlotCtx :=
  ⟨⟨[], [], [], Option.none, .none, ⟨[]⟩, 0⟩⟩

/-- The lines of the correlation annotation of rule 1: the overall
`Corr: {corr:.2f}` line over the full columns, followed — when the grouping
mode is categorical — by one line per group key (pandas `groupby` iterates
the sorted distinct keys) showing the correlation of the group's slices,
each to 2 decimal places. -/
def corrLines (plt : DataFrame) (mode : ColorMode) (color_by : Option String)
    (row_var col_var : String) : List CorrLine :=
  let xs := plt.colVals row_var
  let ys := plt.colVals col_var
  let overall : CorrLine := ⟨Option.none, xs, ys, 2⟩
  match mode, color_by with
  | .categorical, some c =>
      let ks := plt.colVals c
      overall ::
        (sortedDistinct ks).map
          (fun g => ⟨some g, rowsWhere ks g xs, rowsWhere ks g ys, 2⟩)
  | _, _ => [overall]

/-- The cell-override loop body of `plot_pairs` for the grid cell at row
`i`, column `j`: the first matching branch of the source's
`if`/`elif` chain, `baseline` when none matches. -/
def renderCell (ctx : PlotCtx) (i j : Nat) : CellRender :=
  let row_var := ctx.vars.getD i ""
  let col_var := ctx.vars.getD j ""
  if i < j ∧ row_var ∈ ctx.num_vars ∧ col_var ∈ ctx.num_vars then
    .corrAnnot (corrLines ctx.plt ctx.color_mode ctx.color_by row_var col_var)
      ctx.corr_fontsize true
  else if i = j ∧ row_var ∈ ctx.cat_vars then
    if ctx.color_mode = .categorical then
      .histogram (ctx.plt.colVals row_var) ctx.color_by true false
    else
      .histogram (ctx.plt.colVals row_var) Option.none false false
  else if i = j ∧ colorInNum ctx.color_by ctx.num_vars = true then
    .kde (ctx.plt.colVals row_var) "black" false
  else if row_var ∈ ctx.cat_vars ∧ col_var ∈ ctx.cat_vars then
    .heatmap (crosstab (ctx.plt.colVals row_var) (ctx.plt.colVals col_var)) "d" false
  else if row_var ∈ ctx.cat_vars then
    .boxplotH (ctx.plt.colVals row_var) (ctx.plt.colVals col_var)
      (if ctx.color_mode = .categorical then ctx.color_by else Option.none)
  else if col_var ∈ ctx.cat_vars then
    .boxplotV (ctx.plt.colVals col_var) (ctx.plt.colVals row_var)
      (if ctx.color_mode = .categorical then ctx.color_by else Option.none)
  else
    .baseline

/-- The mutable state of one `plot_pairs` invocation: the caller's frame
(`data`) and the working copy (`plt_df`).  The source contains exactly two
kinds of frame assignment — `plt_df = data[all_vars].copy()` (creation) and
`plt_df[var] = ...` (the code-conversion loop) — and both target the `plt`
slot. -/
structure PlotState where
  data : DataFrame
  plt : DataFrame
  deriving DecidableEq, Repr

/-- `plt_df[var] = vals`: an assignment into the working copy. -/
def PlotState.assignPlt (s : PlotState) (n : String) (dt : Dtype) (vals : List Val) :
    PlotState :=
  { s with plt := s.plt.setCol n dt vals }

/-- The code-conversion loop `for var in cat_vars: plt_df[var] =
plt_df[var].astype("category").cat.codes` (run only when `color_by` is
given). -/
def convertCatsState (s : PlotState) (catVars : List String) : PlotState :=
  catVars.foldl
    (fun st v => st.assignPlt v .int8 (catCodes (st.plt.colVals v))) s

/-- The state after the pre-loop lines: the copy of `data[all_vars]`,
code-converted on the categorical columns exactly when `color_by` is
given. -/
def mkState (data : DataFrame) (color_by : Option String) (plt0 : DataFrame) : PlotState :=
  match color_by with
  | Option.none => ⟨data, plt0.copy⟩
  | some _ => convertCatsState ⟨data, plt0.copy⟩ plt0.catColumns

/-- The loop context assembled from the pre-loop lines (see `PlotCtx`). -/
def mkCtx (data : DataFrame) (vars : List String) (color_by : Option String)
    (corr_fontsize : Int) (plt0 : DataFrame) : PlotCtx :=
  ⟨vars, plt0.catColumns, plt0.numColumns, color_by,
    resolveColorMode data color_by, (mkState data color_by plt0).plt, corr_fontsize⟩

/-- The pre-loop phase of `plot_pairs`: build `all_vars`, select
`data[all_vars]` (the one point that can raise `KeyError`), classify the
columns, resolve the grouping mode and convert categorical columns to
codes. -/
def buildCtx (data : DataFrame) (vars : List String) (color_by : Option String)
    (corr_fontsize : Int) : Except PdError (PlotState × PlotCtx) :=
  match selectCols data (allVars vars color_by) with
  | .error e => .error e
  | .ok plt0 => .ok (mkState data color_by plt0, mkCtx data vars color_by corr_fontsize plt0)

/-- The `sns.PairGrid` returned by `plot_pairs`: one cell per (row
variable, column variable) pair, as left by the override loop. -/
structure PairGrid where
  gvars : List String
  hue : Option String
  n : Nat
  cells : List (List CellRender)
  deriving DecidableEq, Repr

/-- `plot_pairs`, with the final invocation state exposed: either the
`KeyError` of the column selection, or the pair of the final frame state
and the returned grid. -/
def plot_pairsRun (data : DataFrame) (vars : List String) (color_by : Option String)
    (corr_fontsize : Int) : Except PdError (PlotState × PairGrid) :=
  match buildCtx data vars color_by corr_fontsize with
  | .error e => .error e
  | .ok (st, ctx) =>
      .ok (st,
        ⟨vars, color_by, vars.length,
          (List.range vars.length).map
            (fun i => (List.range vars.length).map (fun j => renderCell ctx i j))⟩)

/-- `plot_pairs(data, vars, color_by, corr_fontsize)`: the returned grid. -/
def plot_pairs (data : DataFrame) (vars : List String) (color_by : Option String)
    (corr_fontsize : Int) : Except PdError PairGrid :=
  match plot_pairsRun data vars color_by corr_fontsize with
  | .error e => .error e
  | .ok (_, g) => .ok g

/-- `true` exactly when the call returned normally. -/
def exOk {α : Type} : Except PdError α → Bool
  | .ok _ => true
  | .error _ => false

/-- The loop context of a successful invocation (`default` when the
invocation raised; used only under an `exOk` hypothesis). -/
def theCtx (data : DataFrame) (vars : List String) (color_by : Option String)
    (corr_fontsize : Int) : PlotCtx :=
  match buildCtx data vars color_by corr_fontsize with
  | .ok (_, ctx) => ctx
  | .error _ => default

/-- The sorted distinct group keys of the grouping column in the working
frame (`[]` when no grouping column is given). -/
def groupKeys (ctx : PlotCtx) : List Val :=
  match ctx.color_by with
  | some c => sortedDistinct (ctx.plt.colVals c)
  | Option.none => []

/-- The cell-dispatch rule list exactly as the claim states it (first match
wins, 0 when no rule fires): rule 3 requires the grouping *mode* to be
continuous.  Written from the claim's words, for comparison with
`renderCell`. -/
def specRuleC1 (cat_vars num_vars : List String) (mode : ColorMode)
    (vars : List String) (i j : Nat) : Nat :=
  let r := vars.getD i ""
  let c := vars.getD j ""
  if i < j ∧ r ∈ num_vars ∧ c ∈ num_vars then 1
  else if i = j ∧ r ∈ cat_vars then 2
  else if i = j ∧ r ∈ num_vars ∧ mode = .continuous then 3
  else if r ∈ cat_vars ∧ c ∈ cat_vars then 4
  else if r ∈ cat_vars ∧ c ∈ num_vars then 5
  else if c ∈ cat_vars ∧ r ∈ num_vars then 6
  else 0

/-- The rule list with rule 3 amended to what the source tests: not "the
grouping mode is continuous" but "`color_by` is one of the numeric columns"
(`color_by in num_vars`) — a strictly weaker condition, since a numeric
grouping column whose dtype is not `float64`/`int64` resolves the mode to
categorical yet is in `num_vars`. -/
def specRuleC1Am (cat_vars num_vars : List String) (color_by : Option String)
    (vars : List String) (i j : Nat) : Nat :=
  let r := vars.getD i ""
  let c := vars.getD j ""
  if i < j ∧ r ∈ num_vars ∧ c ∈ num_vars then 1
  else if i = j ∧ r ∈ cat_vars then 2
  else if i = j ∧ colorInNum color_by num_vars = true then 3
  else if r ∈ cat_vars ∧ c ∈ cat_vars then 4
  else if r ∈ cat_vars ∧ c ∈ num_vars then 5
  else if c ∈ cat_vars ∧ r ∈ num_vars then 6
  else 0

/-- The set of cells the claim says keep the baseline rendering, written
from the claim's words: the strictly lower triangle with both variables
continuous, together with the diagonal continuous cells of a call *without
grouping*. -/
def specRetainedC7 (num_vars : List String) (color_by : Option String)
    (vars : List String) (i j : Nat) : Bool :=
  let r := vars.getD i ""
  let c := vars.getD j ""
  (decide (j < i) && decide (r ∈ num_vars) && decide (c ∈ num_vars)) ||
    (decide (i = j) && decide (r ∈ num_vars) && decide (color_by = Option.none))

/-- A frame with one `float64` column and one `int32` grouping column: the
grouping column is numeric, yet its dtype is not in `['float64',
'int64']`. -/
def dfInt32 : DataFrame :=
  ⟨[⟨"x", .float64, [.vnum 1, .vnum 2, .vnum 3, .vnum 4]⟩,
    ⟨"g", .int32, [.vnum 0, .vnum 1, .vnum 0, .vnum 1]⟩]⟩

/-- A frame with two `float64` columns and one `object` (categorical)
grouping column with two groups. -/
def dfCat : DataFrame :=
  ⟨[⟨"a", .float64, [.vnum 1, .vnum 2, .vnum 3, .vnum 4]⟩,
    ⟨"b", .float64, [.vnum 2, .vnum 1, .vnum 4, .vnum 3]⟩,
    ⟨"s", .object, [.vstr "p", .vstr "p", .vstr "q", .vstr "q"]⟩]⟩

/-- A frame with two categorical columns and one numeric column, no
grouping; `("v", "n")` is a category combination absent from the rows. -/
def dfTwoCat : DataFrame :=
  ⟨[⟨"c1", .object, [.vstr "u", .vstr "u", .vstr "v"]⟩,
    ⟨"c2", .category, [.vstr "m", .vstr "n", .vstr "m"]⟩,
    ⟨"z", .int64, [.vnum 5, .vnum 6, .vnum 7]⟩]⟩

/-! ## Lemmas about the frame operations -/

lemma col?_name {df : DataFrame} {n : String} {c : Column}
    (h : df.col? n = some c) : c.name = n := by
  have := List.find?_some h
  exact of_decide_eq_true this

lemma col?_mem {df : DataFrame} {n : String} {c : Column}
    (h : df.col? n = some c) : c ∈ df.cols :=
  List.mem_of_find?_eq_some h

lemma col?_isSome_iff {df : DataFrame} {n : String} :
    (df.col? n).isSome = true ↔ n ∈ df.names := by
  unfold DataFrame.col? DataFrame.names
  rw [List.find?_isSome, List.mem_map]
  constructor
  · rintro ⟨c, hc, hname⟩
    exact ⟨c, hc, of_decide_eq_true hname⟩
  · rintro ⟨c, hc, hname⟩
    exact ⟨c, hc, decide_eq_true hname⟩

lemma col?_mk_cons (c : Column) (cs : List Column) (x : String) :
    (DataFrame.mk (c :: cs)).col? x =
      if c.name = x then some c else (DataFrame.mk cs).col? x := by
  unfold DataFrame.col?
  rw [List.find?_cons]
  by_cases h : c.name = x
  · simp [h]
  · simp [h]

lemma selectCols_ok_all {df : DataFrame} {ns : List String} {p : DataFrame}
    (h : selectCols df ns = .ok p) : ∀ n ∈ ns, (df.col? n).isSome = true := by
  unfold selectCols at h
  split at h
  · next hall => exact fun n hn => List.all_eq_true.mp hall n hn
  · exact absurd h (by simp)

lemma selectCols_ok_cols {df : DataFrame} {ns : List String} {p : DataFrame}
    (h : selectCols df ns = .ok p) : p = ⟨ns.filterMap df.col?⟩ := by
  unfold selectCols at h
  split at h
  · exact (Except.ok.injEq _ _).mp h.symm
  · exact absurd h (by simp)

lemma selectCols_isOk_iff {df : DataFrame} {ns : List String} :
    exOk (selectCols df ns) = true ↔ ∀ n ∈ ns, (df.col? n).isSome = true := by
  unfold selectCols
  split
  · next hall => simpa [exOk] using List.all_eq_true.mp hall
  · next hall =>
      simp only [exOk]
      constructor
      · intro h; exact absurd h (by simp)
      · intro h; exact absurd (List.all_eq_true.mpr h) hall

lemma selectCols_col? {df : DataFrame} {ns : List String} {p : DataFrame}
    (h : selectCols df ns = .ok p) {x : String} (hx : x ∈ ns) :
    p.col? x = df.col? x := by
  have hall := selectCols_ok_all h
  have hcols := selectCols_ok_cols h
  subst hcols
  clear h
  induction ns with
  | nil => cases hx
  | cons a tl ih =>
      have ha : (df.col? a).isSome = true := hall a (List.mem_cons_self a tl)
      obtain ⟨ca, hca⟩ := Option.isSome_iff_exists.mp ha
      have hname : ca.name = a := col?_name hca
      have hfm : (a :: tl).filterMap df.col? = ca :: tl.filterMap df.col? := by
        rw [List.filterMap_cons, hca]
      show DataFrame.col? ⟨(a :: tl).filterMap df.col?⟩ x = df.col? x
      rw [hfm, col?_mk_cons]
      by_cases hax : a = x
      · subst hax
        rw [if_pos hname]
        exact hca.symm
      · rw [if_neg (by rw [hname]; exact hax)]
        have hxtl : x ∈ tl := by
          cases List.mem_cons.mp hx with
          | inl h => exact absurd h.symm hax
          | inr h => exact h
        exact ih hxtl (fun n hn => hall n (List.mem_cons_of_mem a hn))

lemma selectCols_colVals {df : DataFrame} {ns : List String} {p : DataFrame}
    (h : selectCols df ns = .ok p) {x : String} (hx : x ∈ ns) :
    p.colVals x = df.colVals x := by
  unfold DataFrame.colVals
  rw [selectCols_col? h hx]

lemma selectCols_names {df : DataFrame} {ns : List String} {p : DataFrame}
    (h : selectCols df ns = .ok p) : p.names = ns := by
  have hall := selectCols_ok_all h
  have hcols := selectCols_ok_cols h
  subst hcols
  clear h
  show (ns.filterMap df.col?).map (fun c => c.name) = ns
  induction ns with
  | nil => rfl
  | cons a tl ih =>
      have ha : (df.col? a).isSome = true := hall a (List.mem_cons_self a tl)
      obtain ⟨ca, hca⟩ := Option.isSome_iff_exists.mp ha
      have hfm : (a :: tl).filterMap df.col? = ca :: tl.filterMap df.col? := by
        rw [List.filterMap_cons, hca]
      rw [hfm, List.map_cons, col?_name hca,
        ih (fun n hn => hall n (List.mem_cons_of_mem a hn))]

lemma mem_catColumns_iff {df : DataFrame} {x : String} :
    x ∈ df.catColumns ↔ ∃ c ∈ df.cols, c.name = x ∧ c.dtype.isCatLike = true := by
  unfold DataFrame.catColumns
  simp only [List.mem_map, List.mem_filter]
  constructor
  · rintro ⟨c, ⟨hc, hcat⟩, hname⟩
    exact ⟨c, hc, hname, hcat⟩
  · rintro ⟨c, hc, hname, hcat⟩
    exact ⟨c, ⟨hc, hcat⟩, hname⟩

lemma mem_numColumns_iff {df : DataFrame} {x : String} :
    x ∈ df.numColumns ↔ ∃ c ∈ df.cols, c.name = x ∧ c.dtype.isCatLike = false := by
  unfold DataFrame.numColumns
  simp only [List.mem_map, List.mem_filter, Bool.not_eq_true']
  constructor
  · rintro ⟨c, ⟨hc, hcat⟩, hname⟩
    exact ⟨c, hc, hname, hcat⟩
  · rintro ⟨c, hc, hname, hcat⟩
    exact ⟨c, ⟨hc, hcat⟩, hname⟩

lemma select_mem_cols {df : DataFrame} {ns : List String} {p : DataFrame}
    (h : selectCols df ns = .ok p) {c : Column} :
    c ∈ p.cols ↔ ∃ n ∈ ns, df.col? n = some c := by
  have hcols := selectCols_ok_cols h
  subst hcols
  exact List.mem_filterMap

lemma select_cat_mem {df : DataFrame} {ns : List String} {p : DataFrame}
    (h : selectCols df ns = .ok p) {x : String} :
    x ∈ p.catColumns ↔ x ∈ ns ∧ ∃ c, df.col? x = some c ∧ c.dtype.isCatLike = true := by
  rw [mem_catColumns_iff]
  constructor
  · rintro ⟨c, hc, hname, hcat⟩
    obtain ⟨n, hn, hfind⟩ := (select_mem_cols h).mp hc
    have : n = x := by rw [← col?_name hfind, hname]
    subst this
    exact ⟨hn, c, hfind, hcat⟩
  · rintro ⟨hx, c, hfind, hcat⟩
    exact ⟨c, (select_mem_cols h).mpr ⟨x, hx, hfind⟩, col?_name hfind, hcat⟩

lemma select_num_mem {df : DataFrame} {ns : List String} {p : DataFrame}
    (h : selectCols df ns = .ok p) {x : String} :
    x ∈ p.numColumns ↔ x ∈ ns ∧ ∃ c, df.col? x = some c ∧ c.dtype.isCatLike = false := by
  rw [mem_numColumns_iff]
  constructor
  · rintro ⟨c, hc, hname, hcat⟩
    obtain ⟨n, hn, hfind⟩ := (select_mem_cols h).mp hc
    have : n = x := by rw [← col?_name hfind, hname]
    subst this
    exact ⟨hn, c, hfind, hcat⟩
  · rintro ⟨hx, c, hfind, hcat⟩
    exact ⟨c, (select_mem_cols h).mpr ⟨x, hx, hfind⟩, col?_name hfind, hcat⟩

lemma select_partition {df : DataFrame} {ns : List String} {p : DataFrame}
    (h : selectCols df ns = .ok p) {x : String} (hx : x ∈ ns) :
    x ∈ p.numColumns ↔ x ∉ p.catColumns := by
  obtain ⟨c, hc⟩ := Option.isSome_iff_exists.mp (selectCols_ok_all h x hx)
  rw [select_num_mem h, select_cat_mem h]
  cases hcat : c.dtype.isCatLike with
  | true =>
      constructor
      · rintro ⟨_, c', hc', hcat'⟩
        rw [hc] at hc'
        cases hc'
        rw [hcat] at hcat'
        cases hcat'
      · intro hnot
        exact absurd ⟨hx, c, hc, hcat⟩ hnot
  | false =>
      constructor
      · rintro _ ⟨_, c', hc', hcat'⟩
        rw [hc] at hc'
        cases hc'
        rw [hcat] at hcat'
        cases hcat'
      · intro _
        exact ⟨hx, c, hc, hcat⟩

/-! ## Lemmas about `all_vars`, mode resolution and the built context -/

lemma mem_allVars {vars : List String} {cb : Option String} {x : String}
    (hx : x ∈ vars) : x ∈ allVars vars cb := by
  cases cb with
  | none => exact hx
  | some c =>
      show x ∈ (if c ∈ vars then vars else vars ++ [c])
      by_cases hc : c ∈ vars
      · rw [if_pos hc]; exact hx
      · rw [if_neg hc]; exact List.mem_append_left _ hx

lemma color_mem_allVars {vars : List String} {c : String} :
    c ∈ allVars vars (some c) := by
  show c ∈ (if c ∈ vars then vars else vars ++ [c])
  by_cases hc : c ∈ vars
  · rw [if_pos hc]; exact hc
  · rw [if_neg hc]; exact List.mem_append_right _ (List.mem_singleton.mpr rfl)

lemma getD_mem_of_lt {vars : List String} {i : Nat} (h : i < vars.length) :
    vars.getD i "" ∈ vars := by
  rw [List.getD_eq_getElem vars "" h]
  exact List.getElem_mem h

lemma buildCtx_ok_elim {data : DataFrame} {vars : List String} {cb : Option String}
    {f : Int} (h : exOk (buildCtx data vars cb f) = true) :
    ∃ plt0, selectCols data (allVars vars cb) = .ok plt0 ∧
      buildCtx data vars cb f = .ok (mkState data cb plt0, mkCtx data vars cb f plt0) ∧
      theCtx data vars cb f = mkCtx data vars cb f plt0 := by
  unfold buildCtx at h ⊢
  unfold theCtx buildCtx
  cases hsel : selectCols data (allVars vars cb) with
  | error e => rw [hsel] at h; exact absurd h (by simp [exOk])
  | ok plt0 => exact ⟨plt0, rfl, rfl, rfl⟩

lemma mkCtx_fields (data : DataFrame) (vars : List String) (cb : Option String)
    (f : Int) (plt0 : DataFrame) :
    (mkCtx data vars cb f plt0).vars = vars ∧
      (mkCtx data vars cb f plt0).cat_vars = plt0.catColumns ∧
      (mkCtx data vars cb f plt0).num_vars = plt0.numColumns ∧
      (mkCtx data vars cb f plt0).color_by = cb ∧
      (mkCtx data vars cb f plt0).color_mode = resolveColorMode data cb ∧
      (mkCtx data vars cb f plt0).corr_fontsize = f :=
  ⟨rfl, rfl, rfl, rfl, rfl, rfl⟩

lemma resolveColorMode_some {data : DataFrame} {c : String} :
    resolveColorMode data (some c) =
      (if ((data.dtypeOf c).getD .object).isFloat64OrInt64 = true then
        ColorMode.continuous else ColorMode.categorical) := rfl

lemma resolveColorMode_none_iff {data : DataFrame} {cb : Option String} :
    resolveColorMode data cb = .none ↔ cb = Option.none := by
  cases cb with
  | none => exact ⟨fun _ => rfl, fun _ => rfl⟩
  | some c =>
      rw [resolveColorMode_some]
      by_cases h : ((data.dtypeOf c).getD .object).isFloat64OrInt64 = true
      · rw [if_pos h]; simp
      · rw [if_neg h]; simp

lemma isFloat64OrInt64_not_catLike {d : Dtype}
    (h : d.isFloat64OrInt64 = true) : d.isCatLike = false := by
  cases d <;> first | rfl | cases h

/-- When the resolved mode is continuous, the grouping column is one of the
numeric columns of the selected frame (so the source's rule-3 test
succeeds). -/
lemma continuous_colorInNum {data : DataFrame} {vars : List String}
    {cb : Option String} {plt0 : DataFrame}
    (hsel : selectCols data (allVars vars cb) = .ok plt0)
    (hmode : resolveColorMode data cb = .continuous) :
    colorInNum cb plt0.numColumns = true := by
  cases cb with
  | none => cases hmode
  | some c =>
      rw [resolveColorMode_some] at hmode
      by_cases hd : ((data.dtypeOf c).getD .object).isFloat64OrInt64 = true
      · obtain ⟨col, hcol⟩ := Option.isSome_iff_exists.mp
          (selectCols_ok_all hsel c color_mem_allVars)
        have hdt : (data.dtypeOf c).getD .object = col.dtype := by
          unfold DataFrame.dtypeOf
          rw [hcol]
          rfl
        rw [hdt] at hd
        unfold colorInNum
        exact decide_eq_true
          ((select_num_mem hsel).mpr
            ⟨color_mem_allVars, col, hcol, isFloat64OrInt64_not_catLike hd⟩)
      · rw [if_neg hd] at hmode
        cases hmode

lemma categorical_has_color {data : DataFrame} {cb : Option String}
    (h : resolveColorMode data cb = .categorical) : ∃ c, cb = some c := by
  cases cb with
  | none => cases h
  | some c => exact ⟨c, rfl⟩

/-! ## Lemmas about column assignment and the code-conversion loop -/

lemma setCol_col?_ne {df : DataFrame} {n x : String} (h : n ≠ x)
    (dt : Dtype) (vals : List Val) :
    (df.setCol n dt vals).col? x = df.col? x := by
  obtain ⟨cols⟩ := df
  induction cols with
  | nil => rfl
  | cons c cs ih =>
      show DataFrame.col? ⟨(c :: cs).map _⟩ x = _
      rw [List.map_cons]
      by_cases hc : c.name = n
      · rw [if_pos hc, col?_mk_cons, col?_mk_cons, if_neg h, if_neg (hc ▸ h)]
        exact ih
      · rw [if_neg hc, col?_mk_cons, col?_mk_cons]
        by_cases hx : c.name = x
        · rw [if_pos hx, if_pos hx]
        · rw [if_neg hx, if_neg hx]
          exact ih

lemma setCol_col?_self {df : DataFrame} {x : String}
    (h : (df.col? x).isSome = true) (dt : Dtype) (vals : List Val) :
    (df.setCol x dt vals).col? x = some ⟨x, dt, vals⟩ := by
  obtain ⟨cols⟩ := df
  induction cols with
  | nil => cases h
  | cons c cs ih =>
      show DataFrame.col? ⟨(c :: cs).map _⟩ x = _
      rw [List.map_cons]
      by_cases hc : c.name = x
      · rw [if_pos hc, col?_mk_cons]
        rw [if_pos rfl]
      · rw [if_neg hc, col?_mk_cons, if_neg hc]
        have htl : ((DataFrame.mk cs).col? x).isSome = true := by
          rw [col?_mk_cons, if_neg hc] at h
          exact h
        exact ih htl

lemma setCol_colVals_self {df : DataFrame} {x : String}
    (h : (df.col? x).isSome = true) (dt : Dtype) (vals : List Val) :
    (df.setCol x dt vals).colVals x = vals := by
  unfold DataFrame.colVals
  rw [setCol_col?_self h dt vals]

lemma setCol_colVals_ne {df : DataFrame} {n x : String} (h : n ≠ x)
    (dt : Dtype) (vals : List Val) :
    (df.setCol n dt vals).colVals x = df.colVals x := by
  unfold DataFrame.colVals
  rw [setCol_col?_ne h dt vals]

lemma setCol_names (df : DataFrame) (n : String) (dt : Dtype) (vals : List Val) :
    (df.setCol n dt vals).names = df.names := by
  unfold DataFrame.setCol DataFrame.names
  obtain ⟨cols⟩ := df
  induction cols with
  | nil => rfl
  | cons c cs ih =>
      simp only [List.map_cons]
      have hhd : (if c.name = n then (⟨n, dt, vals⟩ : Column) else c).name = c.name := by
        by_cases hc : c.name = n
        · rw [if_pos hc]; exact hc.symm
        · rw [if_neg hc]
      rw [hhd, ih]

lemma setCol_isSome {df : DataFrame} {n x : String} (dt : Dtype) (vals : List Val) :
    ((df.setCol n dt vals).col? x).isSome = (df.col? x).isSome := by
  have h1 := @col?_isSome_iff (df.setCol n dt vals) x
  have h2 := @col?_isSome_iff df x
  rw [setCol_names] at h1
  cases hb : (df.col? x).isSome with
  | true => exact h1.mpr (h2.mp hb)
  | false =>
      cases hb2 : ((df.setCol n dt vals).col? x).isSome with
      | true => exact absurd (h2.mpr (h1.mp hb2)) (by simp [hb])
      | false => rfl

lemma convertCatsState_data (l : List String) (s : PlotState) :
    (convertCatsState s l).data = s.data := by
  induction l generalizing s with
  | nil => rfl
  | cons a tl ih =>
      show (convertCatsState (s.assignPlt a .int8 _) tl).data = s.data
      rw [ih]
      rfl

lemma convertCatsState_notmem {l : List String} {x : String} (hx : x ∉ l)
    (s : PlotState) :
    (convertCatsState s l).plt.colVals x = s.plt.colVals x := by
  induction l generalizing s with
  | nil => rfl
  | cons a tl ih =>
      have hax : a ≠ x := fun h => hx (h ▸ List.mem_cons_self a tl)
      have hxtl : x ∉ tl := fun h => hx (List.mem_cons_of_mem a h)
      show (convertCatsState (s.assignPlt a .int8 _) tl).plt.colVals x = _
      rw [ih hxtl]
      exact setCol_colVals_ne hax _ _

lemma convertCatsState_isSome {l : List String} {x : String} (s : PlotState) :
    ((convertCatsState s l).plt.col? x).isSome = (s.plt.col? x).isSome := by
  induction l generalizing s with
  | nil => rfl
  | cons a tl ih =>
      show ((convertCatsState (s.assignPlt a .int8 _) tl).plt.col? x).isSome = _
      rw [ih]
      exact setCol_isSome _ _

lemma convertCatsState_mem {l : List String} {x : String} (hnd : l.Nodup)
    (hx : x ∈ l) (s : PlotState) (hs : (s.plt.col? x).isSome = true) :
    (convertCatsState s l).plt.colVals x = catCodes (s.plt.colVals x) := by
  induction l generalizing s with
  | nil => cases hx
  | cons a tl ih =>
      have hnd' := List.nodup_cons.mp hnd
      by_cases hax : a = x
      · subst hax
        have hxtl : a ∉ tl := hnd'.1
        show (convertCatsState (s.assignPlt a .int8 (catCodes (s.plt.colVals a))) tl).plt.colVals a = _
        rw [convertCatsState_notmem hxtl]
        exact setCol_colVals_self hs _ _
      · have hxtl : x ∈ tl := by
          cases List.mem_cons.mp hx with
          | inl h => exact absurd h.symm hax
          | inr h => exact h
        show (convertCatsState (s.assignPlt a .int8 _) tl).plt.colVals x = _
        have hs' : (((s.assignPlt a .int8 (catCodes (s.plt.colVals a))).plt.col? x)).isSome = true := by
          show ((s.plt.setCol a .int8 _).col? x).isSome = true
          rw [setCol_isSome]
          exact hs
        rw [ih hnd'.2 hxtl _ hs']
        show catCodes ((s.plt.setCol a .int8 _).colVals x) = _
        rw [setCol_colVals_ne hax]

/-! ## Lemmas about the full invocation -/

lemma plot_pairs_exOk (data : DataFrame) (vars : List String) (cb : Option String)
    (f : Int) :
    exOk (plot_pairs data vars cb f) = exOk (selectCols data (allVars vars cb)) := by
  unfold plot_pairs plot_pairsRun buildCtx
  cases selectCols data (allVars vars cb) with
  | error e => rfl
  | ok plt0 => rfl

lemma allVars_isSome_iff {data : DataFrame} {vars : List String} {cb : Option String} :
    (∀ n ∈ allVars vars cb, (data.col? n).isSome = true) ↔
      ((∀ x ∈ vars, (data.col? x).isSome = true) ∧
        ∀ c, cb = some c → (data.col? c).isSome = true) := by
  constructor
  · intro h
    refine ⟨fun x hx => h x (mem_allVars hx), fun c hc => ?_⟩
    subst hc
    exact h c color_mem_allVars
  · rintro ⟨hv, hc⟩ n hn
    cases cb with
    | none => exact hv n hn
    | some c =>
        by_cases hcv : c ∈ vars
        · exact hv n (by simpa [allVars, hcv] using hn)
        · have : n ∈ vars ++ [c] := by simpa [allVars, hcv] using hn
          cases List.mem_append.mp this with
          | inl h => exact hv n h
          | inr h =>
              rw [List.mem_singleton.mp h]
              exact hc c rfl

lemma plot_pairs_ok_elim {data : DataFrame} {vars : List String} {cb : Option String}
    {f : Int} {g : PairGrid} (h : plot_pairs data vars cb f = .ok g) :
    g = ⟨vars, cb, vars.length,
      (List.range vars.length).map
        (fun i => (List.range vars.length).map
          (fun j => renderCell (theCtx data vars cb f) i j))⟩ := by
  unfold plot_pairs plot_pairsRun at h
  unfold theCtx
  unfold buildCtx at h ⊢
  cases hsel : selectCols data (allVars vars cb) with
  | error e =>
      rw [hsel] at h
      cases h
  | ok plt0 =>
      rw [hsel] at h
      injection h with h2
      subst h2
      rfl

lemma grid_cell_eq {data : DataFrame} {vars : List String} {cb : Option String}
    {f : Int} {g : PairGrid} (h : plot_pairs data vars cb f = .ok g)
    {i j : Nat} (hi : i < vars.length) (hj : j < vars.length) :
    (g.cells.getD i []).getD j .baseline = renderCell (theCtx data vars cb f) i j := by
  rw [plot_pairs_ok_elim h]
  have hlen1 : i < ((List.range vars.length).map
      (fun i => (List.range vars.length).map
        (fun j => renderCell (theCtx data vars cb f) i j))).length := by
    rw [List.length_map, List.length_range]
    exact hi
  rw [List.getD_eq_getElem _ _ hlen1, List.getElem_map, List.getElem_range]
  have hlen2 : j < ((List.range vars.length).map
      (fun j => renderCell (theCtx data vars cb f) i j)).length := by
    rw [List.length_map, List.length_range]
    exact hj
  rw [List.getD_eq_getElem _ _ hlen2, List.getElem_map, List.getElem_range]

lemma catColumns_nodup {df : DataFrame} (h : df.names.Nodup) :
    df.catColumns.Nodup := by
  unfold DataFrame.catColumns
  unfold DataFrame.names at h
  exact h.sublist ((List.filter_sublist df.cols).map (fun c => c.name))

/-- A frame with one `float64` variable and one `float64` grouping column
(grouping mode continuous). -/
def dfNumG : DataFrame :=
  ⟨[⟨"x", .float64, [.vnum 1, .vnum 2, .vnum 3]⟩,
    ⟨"g", .float64, [.vnum 5, .vnum 6, .vnum 7]⟩]⟩

/-! ## Claim theorems -/

/-- C4, counterexample: the claim says every *numeric-typed* grouping column
resolves the mode to `continuous`, but for the `int32` grouping column of
`dfInt32` — a numeric dtype, not text/enumerated — the invocation resolves
the mode to `categorical`, because the source only tests
`dtype in ['float64', 'int64']`. -/
theorem plot_pairs_C4_cex :
    (theCtx dfInt32 ["x"] (some "g") 10).color_mode = ColorMode.categorical ∧
      dfInt32.dtypeOf "g" = some Dtype.int32 ∧
      Dtype.int32.isCatLike = false := by
  decide

/-- C4 (amended): the grouping mode is resolved into exactly one of three
mutually exclusive cases: `none` exactly when no grouping column is given;
for a given grouping column, `continuous` exactly when its dtype is
`float64` or `int64`, and `categorical` exactly otherwise — so a numeric
grouping column of any other dtype (e.g. `int32`) resolves to
`categorical`, not `continuous`. -/
theorem plot_pairs_C4_mode (data : DataFrame) (vars : List String)
    (cb : Option String) (f : Int)
    (h : exOk (buildCtx data vars cb f) = true) :
    ((theCtx data vars cb f).color_mode = .none ↔ cb = Option.none) ∧
      ∀ c, cb = some c →
        (((theCtx data vars cb f).color_mode = .continuous ↔
            ((data.dtypeOf c).getD .object).isFloat64OrInt64 = true) ∧
          ((theCtx data vars cb f).color_mode = .categorical ↔
            ((data.dtypeOf c).getD .object).isFloat64OrInt64 = false)) := by
  obtain ⟨plt0, hsel, hbc, hctx⟩ := buildCtx_ok_elim h
  rw [hctx]
  show (resolveColorMode data cb = .none ↔ _) ∧ _
  refine ⟨resolveColorMode_none_iff, ?_⟩
  intro c hc
  subst hc
  show (resolveColorMode data (some c) = _ ↔ _) ∧
    (resolveColorMode data (some c) = _ ↔ _)
  rw [resolveColorMode_some]
  by_cases hd : ((data.dtypeOf c).getD .object).isFloat64OrInt64 = true
  · rw [if_pos hd]
    simp [hd]
  · rw [if_neg hd]
    simp [Bool.of_not_eq_true hd]

/-- Witness for C4's theorem at the categorical-string grouping of
`dfCat`. -/
theorem plot_pairs_C4_mode_witness :
    ((theCtx dfCat ["a", "b"] (some "s") 10).color_mode = .continuous ↔
        ((dfCat.dtypeOf "s").getD .object).isFloat64OrInt64 = true) ∧
      ((theCtx dfCat ["a", "b"] (some "s") 10).color_mode = .categorical ↔
        ((dfCat.dtypeOf "s").getD .object).isFloat64OrInt64 = false) :=
  (plot_pairs_C4_mode dfCat ["a", "b"] (some "s") 10 (by decide)).2 "s" rfl

/-- C5, counterexample: the claim says the diagonal of a continuous variable
is replaced by the ungrouped density curve *when and only when* the grouping
mode is continuous; on `dfInt32` the mode is categorical (`int32` grouping
column), yet the cell is replaced by the density curve, because the source
tests `color_by in num_vars`, not the resolved mode. -/
theorem plot_pairs_C5_cex :
    (theCtx dfInt32 ["x"] (some "g") 10).color_mode = ColorMode.categorical ∧
      renderCell (theCtx dfInt32 ["x"] (some "g") 10) 0 0 =
        .kde ((theCtx dfInt32 ["x"] (some "g") 10).plt.colVals "x") "black" false := by
  decide

/-- C5 (amended): a diagonal cell of a continuous variable is replaced by
the single ungrouped density-estimate curve of that variable if and only if
the grouping column is given and is one of the numeric columns
(`color_by in num_vars`) — a condition implied by, but not equivalent to,
the grouping mode being continuous. -/
theorem plot_pairs_C5_diagKde (data : DataFrame) (vars : List String)
    (cb : Option String) (f : Int)
    (h : exOk (buildCtx data vars cb f) = true) (i : Nat) (hi : i < vars.length)
    (hrow : vars.getD i "" ∈ (theCtx data vars cb f).num_vars) :
    renderCell (theCtx data vars cb f) i i =
        .kde ((theCtx data vars cb f).plt.colVals (vars.getD i "")) "black" false ↔
      colorInNum cb (theCtx data vars cb f).num_vars = true := by
  obtain ⟨plt0, hsel, hbc, hctx⟩ := buildCtx_ok_elim h
  rw [hctx] at hrow ⊢
  have hmem : vars.getD i "" ∈ allVars vars cb := mem_allVars (getD_mem_of_lt hi)
  have hncat : vars.getD i "" ∉ plt0.catColumns :=
    (select_partition hsel hmem).mp hrow
  have hncat2 : vars[i]?.getD "" ∉ plt0.catColumns := by
    rw [← List.getD_eq_getElem?_getD]
    exact hncat
  by_cases hcin : colorInNum cb plt0.numColumns = true
  · simp [renderCell, mkCtx, hcin, hncat2, lt_self_iff_false]
  · simp [renderCell, mkCtx, hcin, hncat2, lt_self_iff_false]

/-- Witness for C5's theorem on `dfNumG` (continuous `float64` grouping):
the diagonal continuous cell is the ungrouped density curve. -/
theorem plot_pairs_C5_diagKde_witness :
    renderCell (theCtx dfNumG ["x"] (some "g") 10) 0 0 =
      .kde ((theCtx dfNumG ["x"] (some "g") 10).plt.colVals (["x"].getD 0 "")) "black" false :=
  (plot_pairs_C5_diagKde dfNumG ["x"] (some "g") 10 (by decide) 0 (by decide)
    (by decide)).mpr (by decide)

/-- C9: two invocations differing only in the annotation font size have the
same success/failure outcome — the only failure point is the column
selection, which does not read the font size. -/
theorem plot_pairs_C9_fontsize (data : DataFrame) (vars : List String)
    (cb : Option String) (f1 f2 : Int) (h1 : 0 < f1) (h2 : 0 < f2) :
    exOk (plot_pairs data vars cb f1) = exOk (plot_pairs data vars cb f2) := by
  rw [plot_pairs_exOk, plot_pairs_exOk]

/-- Witness for C9's theorem at font sizes 10 and 15. -/
theorem plot_pairs_C9_fontsize_witness :
    exOk (plot_pairs dfCat ["a", "b"] (some "s") 10) =
      exOk (plot_pairs dfCat ["a", "b"] (some "s") 15) :=
  plot_pairs_C9_fontsize dfCat ["a", "b"] (some "s") 10 15 (by decide) (by decide)

/-- The caller's frame as it stands after the invocation returns (the
invocation's own frame when it raised before building any state). -/
def finalData (data : DataFrame) (vars : List String) (cb : Option String)
    (f : Int) : DataFrame :=
  match plot_pairsRun data vars cb f with
  | .ok (st, _) => st.data
  | .error _ => data

/-- C8: a successful invocation leaves the input table unchanged — every
frame assignment in the source (the creation `plt_df = data[all_vars].copy()`
and the code-conversion writes `plt_df[var] = ...`) targets the working-copy
slot, never the caller's frame; all derived data lives in the returned grid
value only, and the result is a function of the arguments alone, so repeated
calls are independent. -/
theorem plot_pairs_C8_pure (data : DataFrame) (vars : List String)
    (cb : Option String) (f : Int)
    (h : exOk (plot_pairsRun data vars cb f) = true) :
    finalData data vars cb f = data := by
  unfold finalData plot_pairsRun buildCtx
  cases hsel : selectCols data (allVars vars cb) with
  | error e => rfl
  | ok plt0 =>
      show (mkState data cb plt0).data = data
      unfold mkState
      cases cb with
      | none => rfl
      | some c => exact convertCatsState_data _ _

/-- Witness for C8's theorem: the categorical-grouping invocation on
`dfCat` (which converts a column of its working copy) leaves `dfCat`
unchanged. -/
theorem plot_pairs_C8_pure_witness :
    finalData dfCat ["a", "b"] (some "s") 10 = dfCat :=
  plot_pairs_C8_pure dfCat ["a", "b"] (some "s") 10 (by decide)

/-- C3: the invocation raises if and only if the grouping column or one of
the requested variables is absent from the table's columns; the only error
it raises itself is the `KeyError` of that lookup, and a successful call
returns a complete `vars.length × vars.length` grid. -/
theorem plot_pairs_C3_keyError (data : DataFrame) (vars : List String)
    (cb : Option String) (f : Int) :
    (exOk (plot_pairs data vars cb f) = true ↔
        ((∀ x ∈ vars, (data.col? x).isSome = true) ∧
          ∀ c, cb = some c → (data.col? c).isSome = true)) ∧
      (∀ e, plot_pairs data vars cb f = .error e → e = .keyError) ∧
      ∀ g, plot_pairs data vars cb f = .ok g →
        g.cells.length = vars.length ∧ ∀ row ∈ g.cells, row.length = vars.length := by
  refine ⟨?_, ?_, ?_⟩
  · rw [plot_pairs_exOk, selectCols_isOk_iff]
    exact allVars_isSome_iff
  · intro e he
    unfold plot_pairs plot_pairsRun buildCtx selectCols at he
    by_cases hall : (allVars vars cb).all (fun n => (data.col? n).isSome) = true
    · rw [if_pos hall] at he
    · rw [if_neg hall] at he
  · intro g hg
    rw [plot_pairs_ok_elim hg]
    refine ⟨by simp, ?_⟩
    intro row hrow
    simp only [List.mem_map, List.mem_range] at hrow
    obtain ⟨i, hi, hrow⟩ := hrow
    rw [← hrow]
    simp

/-- The 1×1 grid returned for a single continuous variable without
grouping: the lone diagonal cell keeps the baseline rendering. -/
def gridW : PairGrid := ⟨["x"], Option.none, 1, [[.baseline]]⟩

/-- Witness for C3's theorem: the no-grouping single-variable call returns
the complete 1×1 grid `gridW`. -/
theorem plot_pairs_C3_keyError_witness :
    gridW.cells.length = 1 ∧ ∀ row ∈ gridW.cells, row.length = 1 :=
  (plot_pairs_C3_keyError dfNumG ["x"] Option.none 10).2.2 gridW (by rfl)

@[simp] lemma mkCtx_vars (d : DataFrame) (v : List String) (cb : Option String)
    (f : Int) (p : DataFrame) : (mkCtx d v cb f p).vars = v := rfl

@[simp] lemma mkCtx_cat_vars (d : DataFrame) (v : List String) (cb : Option String)
    (f : Int) (p : DataFrame) : (mkCtx d v cb f p).cat_vars = p.catColumns := rfl

@[simp] lemma mkCtx_num_vars (d : DataFrame) (v : List String) (cb : Option String)
    (f : Int) (p : DataFrame) : (mkCtx d v cb f p).num_vars = p.numColumns := rfl

@[simp] lemma mkCtx_color_by (d : DataFrame) (v : List String) (cb : Option String)
    (f : Int) (p : DataFrame) : (mkCtx d v cb f p).color_by = cb := rfl

@[simp] lemma mkCtx_color_mode (d : DataFrame) (v : List String) (cb : Option String)
    (f : Int) (p : DataFrame) :
    (mkCtx d v cb f p).color_mode = resolveColorMode d cb := rfl

@[simp] lemma mkCtx_fontsize (d : DataFrame) (v : List String) (cb : Option String)
    (f : Int) (p : DataFrame) : (mkCtx d v cb f p).corr_fontsize = f := rfl

@[simp] lemma mkCtx_plt (d : DataFrame) (v : List String) (cb : Option String)
    (f : Int) (p : DataFrame) : (mkCtx d v cb f p).plt = (mkState d cb p).plt := rfl

lemma groupKeys_some {ctx : PlotCtx} {c : String} (h : ctx.color_by = some c) :
    groupKeys ctx = sortedDistinct (ctx.plt.colVals c) := by
  unfold groupKeys
  rw [h]

/-- C2: an upper-triangle cell of two continuous variables becomes the
correlation annotation, ticks removed: the overall `Corr:` line (the
correlation of the two full columns, 2 decimal places) alone when the
grouping mode is not categorical, and followed by exactly one labelled line
per group — label the group key, value the correlation of the group's
slices, 2 decimal places — when it is (so 1 + k correlation values for k
groups). -/
theorem plot_pairs_C2_corrCell (data : DataFrame) (vars : List String)
    (cb : Option String) (f : Int)
    (h : exOk (buildCtx data vars cb f) = true) (i j : Nat)
    (hij : i < j)
    (hrow : vars.getD i "" ∈ (theCtx data vars cb f).num_vars)
    (hcol : vars.getD j "" ∈ (theCtx data vars cb f).num_vars) :
    renderCell (theCtx data vars cb f) i j =
        .corrAnnot
          (corrLines (theCtx data vars cb f).plt (theCtx data vars cb f).color_mode cb
            (vars.getD i "") (vars.getD j "")) f true ∧
      ((theCtx data vars cb f).color_mode = .categorical →
        (corrLines (theCtx data vars cb f).plt (theCtx data vars cb f).color_mode cb
            (vars.getD i "") (vars.getD j "")).length =
          1 + (groupKeys (theCtx data vars cb f)).length ∧
        (corrLines (theCtx data vars cb f).plt (theCtx data vars cb f).color_mode cb
            (vars.getD i "") (vars.getD j "")).map (fun l => l.label) =
          Option.none :: (groupKeys (theCtx data vars cb f)).map some) ∧
      ((theCtx data vars cb f).color_mode ≠ .categorical →
        corrLines (theCtx data vars cb f).plt (theCtx data vars cb f).color_mode cb
            (vars.getD i "") (vars.getD j "") =
          [⟨Option.none, (theCtx data vars cb f).plt.colVals (vars.getD i ""),
            (theCtx data vars cb f).plt.colVals (vars.getD j ""), 2⟩]) ∧
      ∀ l ∈ corrLines (theCtx data vars cb f).plt (theCtx data vars cb f).color_mode cb
          (vars.getD i "") (vars.getD j ""), l.decimals = 2 := by
  obtain ⟨plt0, hsel, hbc, hctx⟩ := buildCtx_ok_elim h
  rw [hctx] at hrow hcol ⊢
  simp only [mkCtx_num_vars] at hrow hcol
  refine ⟨?_, ?_, ?_, ?_⟩
  · simp only [renderCell, mkCtx_vars, mkCtx_num_vars, mkCtx_cat_vars, mkCtx_color_by,
      mkCtx_color_mode, mkCtx_fontsize, mkCtx_plt]
    rw [if_pos ⟨hij, hrow, hcol⟩]
  · intro hcatmode
    simp only [mkCtx_color_mode] at hcatmode
    obtain ⟨c, hc⟩ := categorical_has_color hcatmode
    subst hc
    simp only [mkCtx_plt, mkCtx_color_mode, hcatmode,
      groupKeys_some (show (mkCtx data vars (some c) f plt0).color_by = some c from rfl)]
    unfold corrLines
    constructor
    · simp [Nat.add_comm]
    · simp only [mkCtx_plt, List.map_cons, List.map_map]
      rfl
  · intro hncatmode
    simp only [mkCtx_color_mode] at hncatmode
    simp only [mkCtx_plt, mkCtx_color_mode]
    cases cb with
    | none => rfl
    | some c =>
        rw [resolveColorMode_some] at hncatmode ⊢
        by_cases hd : ((data.dtypeOf c).getD .object).isFloat64OrInt64 = true
        · rw [if_pos hd]
          rfl
        · exact absurd (if_neg hd) hncatmode
  · intro l hl
    simp only [mkCtx_plt, mkCtx_color_mode] at hl
    unfold corrLines at hl
    rcases hmc : resolveColorMode data cb with _ | _ | _ <;> rw [hmc] at hl
    · cases cb <;> simp at hl <;> rw [hl]
    · cases cb <;> simp at hl <;> rw [hl]
    · cases cb with
      | none =>
          simp at hl
          rw [hl]
      | some c =>
          simp at hl
          rcases hl with hl | ⟨g, hg, hl⟩
          · rw [hl]
          · rw [← hl]

/-- Witness for C2's theorem: on `dfCat` with its two-group categorical
grouping, the (0,1) correlation cell shows 1 + 2 correlation values. -/
theorem plot_pairs_C2_corrCell_witness :
    (corrLines (theCtx dfCat ["a", "b"] (some "s") 10).plt
        (theCtx dfCat ["a", "b"] (some "s") 10).color_mode (some "s")
        (["a", "b"].getD 0 "") (["a", "b"].getD 1 "")).length =
      1 + (groupKeys (theCtx dfCat ["a", "b"] (some "s") 10)).length :=
  ((plot_pairs_C2_corrCell dfCat ["a", "b"] (some "s") 10 (by decide) 0 1 (by decide)
      (by decide) (by decide)).2.1 (by decide)).1

lemma find?_map_key {α β : Type} [DecidableEq α] {l : List α} (g : α → β) {x : α}
    (hx : x ∈ l) :
    (l.map (fun a => (a, g a))).find? (fun p => decide (p.1 = x)) = some (x, g x) := by
  induction l with
  | nil => cases hx
  | cons a tl ih =>
      rw [List.map_cons, List.find?_cons]
      by_cases hax : a = x
      · subst hax
        simp
      · have : (decide ((a, g a).1 = x)) = false := by
          simp [hax]
        rw [this]
        cases List.mem_cons.mp hx with
        | inl h => exact absurd h.symm hax
        | inr h => exact ih h

/-- Every combination of an observed row value and an observed column value
has a (possibly zero) count in the cross-tabulation. -/
lemma ctLookup_crosstab {rs cs : List Val} {r c : Val}
    (hr : r ∈ sortedDistinct rs) (hc : c ∈ sortedDistinct cs) :
    ctLookup (crosstab rs cs) r c = some (countPairs rs cs r c) := by
  unfold ctLookup crosstab
  rw [find?_map_key (fun r => (sortedDistinct cs).map (fun c => (c, countPairs rs cs r c))) hr]
  simp only
  rw [find?_map_key (fun c => countPairs rs cs r c) hc]
  rfl

/-- C6: an off-diagonal cell of two categorical variables (not taken by an
earlier rule) becomes the count heatmap of the 2-D cross-tabulation of the
two columns, integer-annotated (`fmt='d'`), without color-bar, and every
combination of observed categories — including absent ones — carries its
count (0 when absent). -/
theorem plot_pairs_C6_heatmap (data : DataFrame) (vars : List String)
    (cb : Option String) (f : Int)
    (h : exOk (buildCtx data vars cb f) = true) (i j : Nat)
    (hi : i < vars.length) (hj : j < vars.length) (hij : i ≠ j)
    (hrow : vars.getD i "" ∈ (theCtx data vars cb f).cat_vars)
    (hcol : vars.getD j "" ∈ (theCtx data vars cb f).cat_vars) :
    renderCell (theCtx data vars cb f) i j =
        .heatmap
          (crosstab ((theCtx data vars cb f).plt.colVals (vars.getD i ""))
            ((theCtx data vars cb f).plt.colVals (vars.getD j ""))) "d" false ∧
      ∀ r ∈ sortedDistinct ((theCtx data vars cb f).plt.colVals (vars.getD i "")),
        ∀ c ∈ sortedDistinct ((theCtx data vars cb f).plt.colVals (vars.getD j "")),
          ctLookup
              (crosstab ((theCtx data vars cb f).plt.colVals (vars.getD i ""))
                ((theCtx data vars cb f).plt.colVals (vars.getD j ""))) r c =
            some (countPairs ((theCtx data vars cb f).plt.colVals (vars.getD i ""))
              ((theCtx data vars cb f).plt.colVals (vars.getD j "")) r c) := by
  obtain ⟨plt0, hsel, hbc, hctx⟩ := buildCtx_ok_elim h
  rw [hctx] at hrow hcol ⊢
  simp only [mkCtx_cat_vars] at hrow hcol
  constructor
  · have hmemr : vars.getD i "" ∈ allVars vars cb := mem_allVars (getD_mem_of_lt hi)
    have hrnum : vars.getD i "" ∉ plt0.numColumns :=
      fun hn => absurd hrow ((select_partition hsel hmemr).mp hn)
    simp only [renderCell, mkCtx_vars, mkCtx_num_vars, mkCtx_cat_vars, mkCtx_color_by,
      mkCtx_color_mode, mkCtx_fontsize, mkCtx_plt]
    rw [if_neg (fun hcond => hrnum hcond.2.1)]
    rw [if_neg (fun hcond => hij hcond.1)]
    rw [if_neg (fun hcond => hij hcond.1)]
    rw [if_pos ⟨hrow, hcol⟩]
  · intro r hr c hc
    exact ctLookup_crosstab hr hc

/-- Witness for C6's theorem: on `dfTwoCat` the (0,1) cell is the count
heatmap, and the absent combination ("v", "n") carries count 0. -/
theorem plot_pairs_C6_heatmap_witness :
    renderCell (theCtx dfTwoCat ["c1", "c2", "z"] Option.none 10) 0 1 =
        .heatmap
          (crosstab ((theCtx dfTwoCat ["c1", "c2", "z"] Option.none 10).plt.colVals
              (["c1", "c2", "z"].getD 0 ""))
            ((theCtx dfTwoCat ["c1", "c2", "z"] Option.none 10).plt.colVals
              (["c1", "c2", "z"].getD 1 ""))) "d" false ∧
      ctLookup
          (crosstab ((theCtx dfTwoCat ["c1", "c2", "z"] Option.none 10).plt.colVals
              (["c1", "c2", "z"].getD 0 ""))
            ((theCtx dfTwoCat ["c1", "c2", "z"] Option.none 10).plt.colVals
              (["c1", "c2", "z"].getD 1 ""))) (.vstr "v") (.vstr "n") = some 0 :=
  ⟨(plot_pairs_C6_heatmap dfTwoCat ["c1", "c2", "z"] Option.none 10 (by decide) 0 1
      (by decide) (by decide) (by decide) (by decide) (by decide)).1,
    by
      have := (plot_pairs_C6_heatmap dfTwoCat ["c1", "c2", "z"] Option.none 10 (by decide)
        0 1 (by decide) (by decide) (by decide) (by decide) (by decide)).2
        (.vstr "v") (by decide) (.vstr "n") (by decide)
      rw [this]
      decide⟩

/-- C10: whenever a grouping column is given — whatever its dtype — every
categorical column among the selected columns is replaced in the working
frame by its integer category codes before the grid is built; without a
grouping column the working frame keeps the original values. -/
theorem plot_pairs_C10_codes (data : DataFrame) (vars : List String) (f : Int) :
    (∀ c, exOk (buildCtx data vars (some c) f) = true →
        (allVars vars (some c)).Nodup →
        ∀ x ∈ (theCtx data vars (some c) f).cat_vars,
          (theCtx data vars (some c) f).plt.colVals x = catCodes (data.colVals x)) ∧
      (exOk (buildCtx data vars Option.none f) = true →
        ∀ x ∈ vars,
          (theCtx data vars Option.none f).plt.colVals x = data.colVals x) := by
  constructor
  · intro c h hnd x hx
    obtain ⟨plt0, hsel, hbc, hctx⟩ := buildCtx_ok_elim h
    rw [hctx] at hx ⊢
    simp only [mkCtx_cat_vars] at hx
    simp only [mkCtx_plt]
    have hxall : x ∈ allVars vars (some c) := ((select_cat_mem hsel).mp hx).1
    have hnames : plt0.names.Nodup := by
      rw [selectCols_names hsel]
      exact hnd
    have hxnames : x ∈ plt0.names := by
      rw [selectCols_names hsel]
      exact hxall
    have hxsome : (plt0.col? x).isSome = true := col?_isSome_iff.mpr hxnames
    show (convertCatsState ⟨data, plt0.copy⟩ plt0.catColumns).plt.colVals x = _
    rw [convertCatsState_mem (catColumns_nodup hnames) hx _ hxsome]
    show catCodes (plt0.colVals x) = _
    rw [selectCols_colVals hsel hxall]
  · intro h x hx
    obtain ⟨plt0, hsel, hbc, hctx⟩ := buildCtx_ok_elim h
    rw [hctx]
    simp only [mkCtx_plt]
    show plt0.colVals x = _
    exact selectCols_colVals hsel (mem_allVars hx)

/-- Witness for C10's theorem: on `dfCat` the grouping column "s" itself is
code-converted in the working frame; without grouping, "a" keeps its
values. -/
theorem plot_pairs_C10_codes_witness :
    (theCtx dfCat ["a", "b"] (some "s") 10).plt.colVals "s" =
        catCodes (dfCat.colVals "s") ∧
      (theCtx dfCat ["a", "b"] Option.none 10).plt.colVals "a" = dfCat.colVals "a" :=
  ⟨(plot_pairs_C10_codes dfCat ["a", "b"] 10).1 "s" (by decide) (by decide) "s" (by decide),
    (plot_pairs_C10_codes dfCat ["a", "b"] 10).2 (by decide) "a" (by decide)⟩

/-- The override loop computes exactly the first-match dispatch of the
(amended) rule list, provided the two cell variables are classified by the
cat/num partition of the selected columns. -/
lemma renderCell_kind_eq (ctx : PlotCtx) (i j : Nat)
    (hpr : ctx.vars.getD i "" ∈ ctx.num_vars ↔ ctx.vars.getD i "" ∉ ctx.cat_vars)
    (hpc : ctx.vars.getD j "" ∈ ctx.num_vars ↔ ctx.vars.getD j "" ∉ ctx.cat_vars) :
    (renderCell ctx i j).kind =
      specRuleC1Am ctx.cat_vars ctx.num_vars ctx.color_by ctx.vars i j := by
  by_cases hrc : ctx.vars.getD i "" ∈ ctx.cat_vars <;>
    by_cases hcc : ctx.vars.getD j "" ∈ ctx.cat_vars <;>
    by_cases hlt : i < j <;>
    by_cases heq : i = j <;>
    by_cases hcin : colorInNum ctx.color_by ctx.num_vars = true <;>
    by_cases hmode : ctx.color_mode = .categorical <;>
    simp_all [renderCell, specRuleC1Am, CellRender.kind] <;>
    split_ifs <;>
    rfl

/-- C1, counterexample: on `dfInt32` (one continuous variable, `int32`
grouping column) the diagonal cell is replaced through the source's third
branch (density curve, kind 3), while the claim's rule list — whose rule 3
requires the grouping *mode* to be continuous — matches no rule at all
(kind 0), so the cell should have stayed baseline per the claim. -/
theorem plot_pairs_C1_cex :
    (renderCell (theCtx dfInt32 ["x"] (some "g") 10) 0 0).kind = 3 ∧
      specRuleC1 (theCtx dfInt32 ["x"] (some "g") 10).cat_vars
        (theCtx dfInt32 ["x"] (some "g") 10).num_vars
        (theCtx dfInt32 ["x"] (some "g") 10).color_mode ["x"] 0 0 = 0 := by
  decide

/-- C1 (amended): every cell of the grid is rendered by exactly the first
matching rule of the ordered list, with rule 3's condition amended from
"grouping mode continuous" to the source's actual test "the grouping column
is one of the numeric columns" (`color_by in num_vars`); no later rule
fires on a cell an earlier rule matched, and a cell no rule matches keeps
the baseline. -/
theorem plot_pairs_C1_rules (data : DataFrame) (vars : List String)
    (cb : Option String) (f : Int)
    (h : exOk (buildCtx data vars cb f) = true) (i j : Nat)
    (hi : i < vars.length) (hj : j < vars.length) :
    (renderCell (theCtx data vars cb f) i j).kind =
        specRuleC1Am (theCtx data vars cb f).cat_vars (theCtx data vars cb f).num_vars
          cb vars i j ∧
      ∀ g, plot_pairs data vars cb f = .ok g →
        (g.cells.getD i []).getD j .baseline = renderCell (theCtx data vars cb f) i j := by
  obtain ⟨plt0, hsel, hbc, hctx⟩ := buildCtx_ok_elim h
  constructor
  · rw [hctx]
    have hpr := select_partition hsel (mem_allVars (getD_mem_of_lt hi))
    have hpc := select_partition hsel (mem_allVars (getD_mem_of_lt hj))
    exact renderCell_kind_eq (mkCtx data vars cb f plt0) i j hpr hpc
  · intro g hg
    exact grid_cell_eq hg hi hj

/-- Witness for C1's theorem on the mixed frame `dfTwoCat` at the
categorical-categorical cell (0, 1). -/
theorem plot_pairs_C1_rules_witness :
    (renderCell (theCtx dfTwoCat ["c1", "c2", "z"] Option.none 10) 0 1).kind =
      specRuleC1Am (theCtx dfTwoCat ["c1", "c2", "z"] Option.none 10).cat_vars
        (theCtx dfTwoCat ["c1", "c2", "z"] Option.none 10).num_vars
        Option.none ["c1", "c2", "z"] 0 1 :=
  (plot_pairs_C1_rules dfTwoCat ["c1", "c2", "z"] Option.none 10 (by decide) 0 1
    (by decide) (by decide)).1

/-- C7, counterexample: with the categorical (string) grouping of `dfCat`,
the diagonal continuous cell (0, 0) keeps the baseline rendering, but it is
*not* in the claim's retained set (which admits diagonal continuous cells
only for calls without grouping), so the claim wrongly requires its axes to
be replaced. -/
theorem plot_pairs_C7_cex :
    renderCell (theCtx dfCat ["a", "b"] (some "s") 10) 0 0 = .baseline ∧
      specRetainedC7 (theCtx dfCat ["a", "b"] (some "s") 10).num_vars (some "s")
        ["a", "b"] 0 0 = false := by
  decide

/-- C7 (amended): a cell keeps the baseline rendering exactly when it is a
strictly-lower-triangle cell with both variables continuous, or a diagonal
continuous cell whose grouping column is absent or not one of the numeric
columns (in particular, diagonal continuous cells of categorically grouped
calls also keep the baseline — the grouped default diagonal); every other
cell has its baseline axes replaced. -/
theorem plot_pairs_C7_retained (data : DataFrame) (vars : List String)
    (cb : Option String) (f : Int)
    (h : exOk (buildCtx data vars cb f) = true) (i j : Nat)
    (hi : i < vars.length) (hj : j < vars.length) :
    renderCell (theCtx data vars cb f) i j = .baseline ↔
      ((j < i ∧ vars.getD i "" ∈ (theCtx data vars cb f).num_vars ∧
          vars.getD j "" ∈ (theCtx data vars cb f).num_vars) ∨
        (i = j ∧ vars.getD i "" ∈ (theCtx data vars cb f).num_vars ∧
          colorInNum cb (theCtx data vars cb f).num_vars = false)) := by
  obtain ⟨plt0, hsel, hbc, hctx⟩ := buildCtx_ok_elim h
  rw [hctx]
  have hpr := select_partition hsel (mem_allVars (getD_mem_of_lt hi))
  have hpc := select_partition hsel (mem_allVars (getD_mem_of_lt hj))
  simp only [mkCtx_num_vars, mkCtx_color_by]
  by_cases hrc : vars.getD i "" ∈ plt0.catColumns <;>
    by_cases hcc : vars.getD j "" ∈ plt0.catColumns <;>
    rcases Nat.lt_trichotomy i j with hlt | heq | hgt <;>
    by_cases hcin : colorInNum cb plt0.numColumns = true <;>
    by_cases hmode : resolveColorMode data cb = .categorical <;>
    simp_all [renderCell, CellRender.kind] <;>
    first
      | omega
      | (split_ifs <;> first | omega | simp_all)

/-- Witness for C7's theorem on `dfTwoCat`: the lower-triangle continuous
pair cell (2, 2) is the diagonal continuous cell of an ungrouped call and
keeps the baseline. -/
theorem plot_pairs_C7_retained_witness :
    renderCell (theCtx dfTwoCat ["c1", "c2", "z"] Option.none 10) 2 2 = .baseline :=
  (plot_pairs_C7_retained dfTwoCat ["c1", "c2", "z"] Option.none 10 (by decide) 2 2
    (by decide) (by decide)).mpr (by decide)

end PlotPairs
